import Mathlib

/-!
Verification development for the three-stage generative interior-design
pipeline in `src/app.py`.

Shallow embedding conventions:
* Python `str` values are modelled as `List Char` (`PyStr`), so that the
  character-level operations of the source (`[:200]` slicing, `.strip()`)
  are exact.
* Raw image payloads are opaque byte sequences, modelled as `List Nat`.
* A backend call (`client.models.generate_content` inside `try/except`)
  is modelled by an oracle function from the request to a `CallResult`:
  `err` is the exception path (the `except` branch, a `ServiceError`),
  `ok` is the normal return.
* Each stage function returns a `StageResult`: the Python return value
  (`result`, where Python `None` is `none`), the number of backend calls
  performed on the executed path (`calls`), and whether `st.error` was
  displayed (`errorShown`).
* The Streamlit session is a `SessionState` with the three slots
  `step1_text`, `step2_image`, `step3_image`; Python `None` is `none`
  and the empty string is `some []`.  Python truthiness of a slot is
  `pyTruthyStr` / `pyTruthyBytes`.
* One press of the Generate button (the `if generate_btn:` block) is
  `runPipeline`, taking the session state before the run (`none` when
  the session is fresh, i.e. the keys are absent) and returning the
  sequence of session states the run passes through, together with the
  per-stage backend call counts.
-/

namespace AIStudio

/-- Python strings, character by character. -/
abbrev PyStr := List Char

/-- Opaque raw image bytes (the orchestration core never decodes them). -/
abbrev Bytes := List Nat

/-- Python `str.strip()`: drop whitespace from both ends. -/
def pyStrip (s : PyStr) : PyStr :=
  ((s.dropWhile Char.isWhitespace).reverse.dropWhile Char.isWhitespace).reverse

/-- Inline binary payload of a response part (`part.inline_data`):
a MIME type string and the raw data bytes. -/
structure Blob where
  mime_type : PyStr
  data : Bytes
deriving Repr, DecidableEq

/-- One content part of a backend response; `inline_data` is `none`
exactly when the Python attribute is `None` (text-only parts). -/
structure Part where
  inline_data : Option Blob
deriving Repr, DecidableEq

/-- `candidate.content` of a backend response; a Python `parts` value of
`None` and an empty list are both falsy in the source guard, so both are
modelled as the empty list. -/
structure Content where
  parts : List Part
deriving Repr, DecidableEq

/-- One response candidate. -/
structure Candidate where
  content : Content
deriving Repr, DecidableEq

/-- An image-model response: the ordered candidate list (`None` and `[]`
are both falsy in the source guard, so both are the empty list). -/
structure ImgResponse where
  candidates : List Candidate
deriving Repr, DecidableEq

/-- Outcome of one `client.models.generate_content` call: `err` is the
exception path (transport/auth/backend `ServiceError`, carrying the
message), `ok` the normal return. -/
inductive CallResult (α : Type) where
  | err (msg : PyStr)
  | ok (resp : α)

/-- Observable outcome of one stage function: the Python return value
(`none` is Python `None`), the number of backend calls made on the
executed path, and whether `st.error` was displayed. -/
structure StageResult (α : Type) where
  result : Option α
  calls : Nat
  errorShown : Bool
deriving Repr, DecidableEq

/-- The fixed stage-1 instruction header from the source. -/
def step1Header : String :=
  "Expand this room description into 1-2 short sentences with key details. Be very brief (under 20 words).\n\n"

/-- The stage-1 prompt: header plus `Room: ` plus the base prompt
truncated by the Python slice `base_prompt[:200]`. -/
def step1Prompt (base_prompt : PyStr) : PyStr :=
  step1Header.data ++ "Room: ".data ++ base_prompt.take 200

/-- The fixed stage-2 instruction header from the source. -/
def sketchHeader : String :=
  "Create a clean black-and-white architectural line drawing sketch. Pure black lines on white background. No shading, no color, no grayscale. Show perspective, layout, and all furniture/objects clearly.\n\n"

/-- The stage-2 prompt: sketch header plus `Room: ` plus the enhanced
brief. -/
def step2Prompt (enhanced_prompt : PyStr) : PyStr :=
  sketchHeader.data ++ "Room: ".data ++ enhanced_prompt

/-- The fixed stage-3 instruction text from the source. -/
def renderHeader : String :=
  "Transform this into a high-end 3D render. Style: photorealistic architectural visualization (archviz). Ultra-high resolution textures, ray-traced lighting, soft shadows, volumetric light, realistic reflections, micro-surface details, natural color grading, and lens effects."

/-- The stage-3 request: the instruction text and the sketch bytes as an
inline part declared with MIME type `image/png`. -/
structure RenderRequest where
  text : PyStr
  image_part : Part
deriving DecidableEq

/-- Builds the two-part multimodal stage-3 payload from the source. -/
def step3Request (sketch_bytes : Bytes) : RenderRequest :=
  ⟨renderHeader.data, ⟨some ⟨"image/png".data, sketch_bytes⟩⟩⟩

/-- Stage 2's part scan (`for part in ...: if part.inline_data: return
part.inline_data.data`): first part with inline data wins. -/
def findInlineData2 : List Part → Option Bytes
  | [] => none
  | p :: rest =>
    match p.inline_data with
    | some blob => some blob.data
    | none => findInlineData2 rest

/-- Stage 3's part scan, a verbatim copy of stage 2's loop in the
source. -/
def findInlineData3 : List Part → Option Bytes
  | [] => none
  | p :: rest =>
    match p.inline_data with
    | some blob => some blob.data
    | none => findInlineData3 rest

/-- Stage 2's response inspection: the guard `if response.candidates and
response.candidates[0].content.parts:` followed by the part scan; falls
through to `None`. -/
def extractImage2 (resp : ImgResponse) : Option Bytes :=
  match resp.candidates with
  | [] => none
  | c :: _ => findInlineData2 c.content.parts

/-- Stage 3's response inspection, a verbatim copy of stage 2's in the
source. -/
def extractImage3 (resp : ImgResponse) : Option Bytes :=
  match resp.candidates with
  | [] => none
  | c :: _ => findInlineData3 c.content.parts

/-- `step1_enhance_prompt` from the source: return `None` when the
client handle is absent; otherwise call the backend with the truncated
prompt; on exception show an error and return `None`; otherwise return
`response.text.strip()`. -/
def step1_enhance_prompt (client : Bool)
    (gw : PyStr → CallResult PyStr) (base_prompt : PyStr) :
    StageResult PyStr :=
  if client then
    match gw (step1Prompt base_prompt) with
    | .err _ => ⟨none, 1, true⟩
    | .ok text => ⟨some (pyStrip text), 1, false⟩
  else ⟨none, 0, false⟩

/-- `step2_generate_sketch` from the source: return `None` when the
client handle is absent; otherwise one backend call; on exception show
an error and return `None`; otherwise scan the first candidate's parts
for inline data, returning `None` when none is found. -/
def step2_generate_sketch (client : Bool)
    (gw : PyStr → CallResult ImgResponse) (enhanced_prompt : PyStr) :
    StageResult Bytes :=
  if client then
    match gw (step2Prompt enhanced_prompt) with
    | .err _ => ⟨none, 1, true⟩
    | .ok resp => ⟨extractImage2 resp, 1, false⟩
  else ⟨none, 0, false⟩

/-- `step3_generate_render` from the source: same shape as stage 2 with
the multimodal request. -/
def step3_generate_render (client : Bool)
    (gw : RenderRequest → CallResult ImgResponse) (sketch_bytes : Bytes) :
    StageResult Bytes :=
  if client then
    match gw (step3Request sketch_bytes) with
    | .err _ => ⟨none, 1, true⟩
    | .ok resp => ⟨extractImage3 resp, 1, false⟩
  else ⟨none, 0, false⟩

/-- Python truthiness of a string-valued session slot: `None` and `""`
are falsy. -/
def pyTruthyStr : Option PyStr → Bool
  | none => false
  | some t => !t.isEmpty

/-- Python truthiness of a bytes-valued session slot: `None` and `b""`
are falsy. -/
def pyTruthyBytes : Option Bytes → Bool
  | none => false
  | some b => !b.isEmpty

/-- The three `st.session_state` slots used by the workflow block. -/
structure SessionState where
  step1_text : Option PyStr
  step2_image : Option Bytes
  step3_image : Option Bytes
deriving Repr, DecidableEq

/-- The session-state initialization block of the source: each slot is
set to its default (`""`, `None`, `None`) only when the key is absent
(fresh session, modelled by `none`); existing values are kept. -/
def initSession : Option SessionState → SessionState
  | none => ⟨some [], none, none⟩
  | some s => s

/-- The process-wide backend handle plus the behaviour of the hosted
models, as one oracle record.  `client = false` is the
`BackendUnavailable` state (`client is None` after the guarded
construction). -/
structure Gateway where
  client : Bool
  textModel : PyStr → CallResult PyStr
  imageModel : PyStr → CallResult ImgResponse
  renderModel : RenderRequest → CallResult ImgResponse

/-- The observable trace of one press of the Generate button: the
session states passed through (starting with the state right after the
initialization block) and the backend call count of each stage. -/
structure RunResult where
  states : List SessionState
  calls1 : Nat
  calls2 : Nat
  calls3 : Nat
  final : SessionState
deriving Repr, DecidableEq

/-- The `if generate_btn:` workflow block of the source: initialize the
slots, run stage 1 and store its result, stop (`st.stop()`) unless the
slot is truthy; likewise for stages 2 and 3, each fed the previous
slot's value. -/
def runPipeline (prev : Option SessionState) (gw : Gateway)
    (base_prompt : PyStr) : RunResult :=
  let s0 := initSession prev
  let r1 := step1_enhance_prompt gw.client gw.textModel base_prompt
  let s1 : SessionState := { s0 with step1_text := r1.result }
  if pyTruthyStr s1.step1_text then
    let r2 := step2_generate_sketch gw.client gw.imageModel (s1.step1_text.getD [])
    let s2 : SessionState := { s1 with step2_image := r2.result }
    if pyTruthyBytes s2.step2_image then
      let r3 := step3_generate_render gw.client gw.renderModel (s2.step2_image.getD [])
      let s3 : SessionState := { s2 with step3_image := r3.result }
      ⟨[s0, s1, s2, s3], r1.calls, r2.calls, r3.calls, s3⟩
    else ⟨[s0, s1, s2], r1.calls, r2.calls, 0, s2⟩
  else ⟨[s0, s1], r1.calls, 0, 0, s1⟩

/-- The base prompt assembled by the form glue
(`f-string` at line 207 of the source). -/
def mkBasePrompt (design_style room_type material_focus color_palette
    additional_details : PyStr) : PyStr :=
  design_style ++ " ".data ++ room_type ++ " with focus on ".data ++
    material_focus ++ " and ".data ++ color_palette ++ " tones. ".data ++
    additional_details

/-- The monotonic-fill property of one session state: a non-empty
(truthy) later slot implies all earlier slots are truthy. -/
def monotoneFill (s : SessionState) : Prop :=
  (pyTruthyBytes s.step2_image = true → pyTruthyStr s.step1_text = true) ∧
  (pyTruthyBytes s.step3_image = true →
    pyTruthyBytes s.step2_image = true ∧ pyTruthyStr s.step1_text = true)

/-- One step of a run never overwrites a slot that is already non-empty
(truthy): any truthy slot keeps its exact value. -/
def preservesNonEmpty (s t : SessionState) : Prop :=
  (pyTruthyStr s.step1_text = true → t.step1_text = s.step1_text) ∧
  (pyTruthyBytes s.step2_image = true → t.step2_image = s.step2_image) ∧
  (pyTruthyBytes s.step3_image = true → t.step3_image = s.step3_image)

/-- True when the MIME string begins with `image/`. -/
def startsWithImage (m : PyStr) : Bool :=
  m.take 6 == "image/".data

/-- Stripping an all-whitespace string yields the empty string. -/
theorem pyStrip_eq_nil (t : PyStr) (h : ∀ c ∈ t, c.isWhitespace) :
    pyStrip t = [] := by
  unfold pyStrip
  have h1 : t.dropWhile Char.isWhitespace = [] :=
    List.dropWhile_eq_nil_iff.mpr h
  simp [h1]

/-- The stage-2 part scan skips a block of parts without inline data. -/
theorem findInlineData2_append (pre rest : List Part)
    (h : ∀ q ∈ pre, q.inline_data = none) :
    findInlineData2 (pre ++ rest) = findInlineData2 rest := by
  induction pre with
  | nil => rfl
  | cons p ps ih =>
    have hp : p.inline_data = none := h p (List.mem_cons_self _ _)
    have hps : ∀ q ∈ ps, q.inline_data = none :=
      fun q hq => h q (List.mem_cons_of_mem _ hq)
    simp [findInlineData2, hp, ih hps]

/-- The stage-2 part scan finds nothing when no part has inline data. -/
theorem findInlineData2_eq_none (l : List Part)
    (h : ∀ q ∈ l, q.inline_data = none) :
    findInlineData2 l = none := by
  have := findInlineData2_append l [] h
  simpa using this

/-- The stage-2 part scan returns the data of the first part carrying
inline data. -/
theorem findInlineData2_first (pre : List Part) (p : Part)
    (post : List Part) (blob : Blob)
    (hpre : ∀ q ∈ pre, q.inline_data = none)
    (hp : p.inline_data = some blob) :
    findInlineData2 (pre ++ p :: post) = some blob.data := by
  rw [findInlineData2_append pre _ hpre]
  simp [findInlineData2, hp]

/-- The two part-scan loops of the source are the same function. -/
theorem findInlineData3_eq : findInlineData3 = findInlineData2 := by
  funext l
  induction l with
  | nil => rfl
  | cons p ps ih =>
    cases hp : p.inline_data with
    | none => simp [findInlineData2, findInlineData3, hp, ih]
    | some blob => simp [findInlineData2, findInlineData3, hp]

/-- The two response-inspection policies of stages 2 and 3 are the same
function. -/
theorem extractImage_identical : extractImage2 = extractImage3 := by
  funext resp
  unfold extractImage2 extractImage3
  rw [findInlineData3_eq]

/-- Shape of a run whose stage 1 produced a falsy value: the run stops
after the stage-1 assignment. -/
theorem runPipeline_halt1 (prev : Option SessionState) (gw : Gateway)
    (bp : PyStr)
    (h : pyTruthyStr (step1_enhance_prompt gw.client gw.textModel bp).result
        = false) :
    runPipeline prev gw bp =
      ⟨[initSession prev,
        ⟨(step1_enhance_prompt gw.client gw.textModel bp).result,
         (initSession prev).step2_image, (initSession prev).step3_image⟩],
       (step1_enhance_prompt gw.client gw.textModel bp).calls, 0, 0,
       ⟨(step1_enhance_prompt gw.client gw.textModel bp).result,
        (initSession prev).step2_image, (initSession prev).step3_image⟩⟩ := by
  unfold runPipeline
  simp [h]

/-- Shape of a run whose stage 1 succeeded and stage 2 produced a falsy
value: the run stops after the stage-2 assignment. -/
theorem runPipeline_halt2 (prev : Option SessionState) (gw : Gateway)
    (bp : PyStr)
    (h1 : pyTruthyStr (step1_enhance_prompt gw.client gw.textModel bp).result
        = true)
    (h2 : pyTruthyBytes (step2_generate_sketch gw.client gw.imageModel
        ((step1_enhance_prompt gw.client gw.textModel bp).result.getD [])).result
        = false) :
    runPipeline prev gw bp =
      ⟨[initSession prev,
        ⟨(step1_enhance_prompt gw.client gw.textModel bp).result,
         (initSession prev).step2_image, (initSession prev).step3_image⟩,
        ⟨(step1_enhance_prompt gw.client gw.textModel bp).result,
         (step2_generate_sketch gw.client gw.imageModel
           ((step1_enhance_prompt gw.client gw.textModel bp).result.getD [])).result,
         (initSession prev).step3_image⟩],
       (step1_enhance_prompt gw.client gw.textModel bp).calls,
       (step2_generate_sketch gw.client gw.imageModel
         ((step1_enhance_prompt gw.client gw.textModel bp).result.getD [])).calls,
       0,
       ⟨(step1_enhance_prompt gw.client gw.textModel bp).result,
        (step2_generate_sketch gw.client gw.imageModel
          ((step1_enhance_prompt gw.client gw.textModel bp).result.getD [])).result,
        (initSession prev).step3_image⟩⟩ := by
  unfold runPipeline
  simp [h1, h2]

/-- Shape of a run in which stages 1 and 2 both produced truthy values:
stage 3 runs and the trace has four states. -/
theorem runPipeline_full (prev : Option SessionState) (gw : Gateway)
    (bp : PyStr)
    (h1 : pyTruthyStr (step1_enhance_prompt gw.client gw.textModel bp).result
        = true)
    (h2 : pyTruthyBytes (step2_generate_sketch gw.client gw.imageModel
        ((step1_enhance_prompt gw.client gw.textModel bp).result.getD [])).result
        = true) :
    runPipeline prev gw bp =
      ⟨[initSession prev,
        ⟨(step1_enhance_prompt gw.client gw.textModel bp).result,
         (initSession prev).step2_image, (initSession prev).step3_image⟩,
        ⟨(step1_enhance_prompt gw.client gw.textModel bp).result,
         (step2_generate_sketch gw.client gw.imageModel
           ((step1_enhance_prompt gw.client gw.textModel bp).result.getD [])).result,
         (initSession prev).step3_image⟩,
        ⟨(step1_enhance_prompt gw.client gw.textModel bp).result,
         (step2_generate_sketch gw.client gw.imageModel
           ((step1_enhance_prompt gw.client gw.textModel bp).result.getD [])).result,
         (step3_generate_render gw.client gw.renderModel
           ((step2_generate_sketch gw.client gw.imageModel
             ((step1_enhance_prompt gw.client gw.textModel bp).result.getD [])).result.getD [])).result⟩],
       (step1_enhance_prompt gw.client gw.textModel bp).calls,
       (step2_generate_sketch gw.client gw.imageModel
         ((step1_enhance_prompt gw.client gw.textModel bp).result.getD [])).calls,
       (step3_generate_render gw.client gw.renderModel
         ((step2_generate_sketch gw.client gw.imageModel
           ((step1_enhance_prompt gw.client gw.textModel bp).result.getD [])).result.getD [])).calls,
       ⟨(step1_enhance_prompt gw.client gw.textModel bp).result,
        (step2_generate_sketch gw.client gw.imageModel
          ((step1_enhance_prompt gw.client gw.textModel bp).result.getD [])).result,
        (step3_generate_render gw.client gw.renderModel
          ((step2_generate_sketch gw.client gw.imageModel
            ((step1_enhance_prompt gw.client gw.textModel bp).result.getD [])).result.getD [])).result⟩⟩ := by
  unfold runPipeline
  simp [h1, h2]

/-- A session state whose sketch and render slots are empty satisfies
the monotonic-fill property. -/
theorem monotoneFill_empty23 (s : SessionState)
    (a : s.step2_image = none) (b : s.step3_image = none) :
    monotoneFill s := by
  constructor
  · intro hc; rw [a] at hc; simp [pyTruthyBytes] at hc
  · intro hc; rw [b] at hc; simp [pyTruthyBytes] at hc

/-- Claim C7: when Gateway/client construction failed (the
`BackendUnavailable` state, `client is None` in the source), each of the
three stage functions immediately returns a falsy result (`None`), makes
zero backend calls and shows no error, and a whole run performs zero
backend calls.  The guarded construction (`try/except` around
`genai.Client`) is modelled by the `client` flag itself, so no crash is
possible. -/
theorem c7_backend_unavailable_short_circuit :
    ∀ (gwt : PyStr → CallResult PyStr)
      (gwi : PyStr → CallResult ImgResponse)
      (gwr : RenderRequest → CallResult ImgResponse)
      (bp enh : PyStr) (sk : Bytes) (prev : Option SessionState),
      step1_enhance_prompt false gwt bp = ⟨none, 0, false⟩ ∧
      step2_generate_sketch false gwi enh = ⟨none, 0, false⟩ ∧
      step3_generate_render false gwr sk = ⟨none, 0, false⟩ ∧
      (runPipeline prev ⟨false, gwt, gwi, gwr⟩ bp).calls1 = 0 ∧
      (runPipeline prev ⟨false, gwt, gwi, gwr⟩ bp).calls2 = 0 ∧
      (runPipeline prev ⟨false, gwt, gwi, gwr⟩ bp).calls3 = 0 := by
  intro gwt gwi gwr bp enh sk prev
  have h := runPipeline_halt1 prev ⟨false, gwt, gwi, gwr⟩ bp rfl
  refine ⟨rfl, rfl, rfl, ?_, ?_, ?_⟩ <;> (rw [h]; try rfl)

/-- Claim C7 witness at a concrete offline gateway. -/
theorem c7_witness :
    step1_enhance_prompt false (fun _ => CallResult.err []) [] =
      ⟨none, 0, false⟩ :=
  (c7_backend_unavailable_short_circuit (fun _ => CallResult.err [])
    (fun _ => CallResult.err []) (fun _ => CallResult.err []) [] [] [] none).1

/-- Claim C3: a stage-1 success envelope whose text is empty or
whitespace-only yields the empty string after `strip`, which is falsy
and therefore a stage failure at the orchestrator gate (the run stops
with two states and no stage-2 call); this outcome (`some ""`, no error
shown) is a different value from the `ServiceError` outcome (`none`
with an error shown); and the embedding is total, so no crash.  The
source encodes `EmptyResult` as the falsy `""` return and `ServiceError`
as the caught-exception `None` return with `st.error`. -/
theorem c3_empty_text_failure (gw : Gateway) (bp t : PyStr)
    (prev : Option SessionState)
    (hclient : gw.client = true)
    (hresp : gw.textModel (step1Prompt bp) = .ok t)
    (hws : ∀ c ∈ t, c.isWhitespace) :
    step1_enhance_prompt gw.client gw.textModel bp = ⟨some [], 1, false⟩ ∧
    pyTruthyStr (step1_enhance_prompt gw.client gw.textModel bp).result
      = false ∧
    (∀ e, step1_enhance_prompt true (fun _ => .err e) bp = ⟨none, 1, true⟩) ∧
    (⟨some [], 1, false⟩ : StageResult PyStr) ≠ ⟨none, 1, true⟩ ∧
    (runPipeline prev gw bp).calls2 = 0 ∧
    (runPipeline prev gw bp).states.length = 2 := by
  have hstrip := pyStrip_eq_nil t hws
  have hstep : step1_enhance_prompt gw.client gw.textModel bp
      = ⟨some [], 1, false⟩ := by
    simp [step1_enhance_prompt, hclient, hresp, hstrip]
  have hfalse : pyTruthyStr
      (step1_enhance_prompt gw.client gw.textModel bp).result = false := by
    rw [hstep]; rfl
  refine ⟨hstep, hfalse, fun e => rfl, by simp, ?_, ?_⟩
  · rw [runPipeline_halt1 prev gw bp hfalse]
  · rw [runPipeline_halt1 prev gw bp hfalse]; rfl

/-- Claim C3 witness: a whitespace-only stage-1 response at a concrete
gateway. -/
theorem c3_witness :
    step1_enhance_prompt true (fun _ => CallResult.ok [' ', '\t']) [] =
      ⟨some [], 1, false⟩ :=
  (c3_empty_text_failure
    ⟨true, fun _ => CallResult.ok [' ', '\t'], fun _ => CallResult.err [],
     fun _ => CallResult.err []⟩
    [] [' ', '\t'] none rfl rfl (by decide)).1

/-- Claim C4: a stage-2 or stage-3 success envelope with zero
inline-data parts anywhere (including zero parts or zero candidates)
yields `None` with no error shown — a failure at the orchestrator gate,
never a truthy result with no image and never an uncaught fault (the
embedding is total) — while the `ServiceError` path yields `None` with
an error shown, a distinct observable outcome. -/
theorem c4_no_image_failure
    (gwi : PyStr → CallResult ImgResponse)
    (gwr : RenderRequest → CallResult ImgResponse)
    (enh : PyStr) (sk : Bytes) (resp2 resp3 : ImgResponse)
    (h2 : gwi (step2Prompt enh) = .ok resp2)
    (h3 : gwr (step3Request sk) = .ok resp3)
    (hni2 : ∀ c ∈ resp2.candidates, ∀ p ∈ c.content.parts,
      p.inline_data = none)
    (hni3 : ∀ c ∈ resp3.candidates, ∀ p ∈ c.content.parts,
      p.inline_data = none) :
    step2_generate_sketch true gwi enh = ⟨none, 1, false⟩ ∧
    step3_generate_render true gwr sk = ⟨none, 1, false⟩ ∧
    (∀ e, step2_generate_sketch true (fun _ => .err e) enh
      = ⟨none, 1, true⟩) ∧
    (∀ e, step3_generate_render true (fun _ => .err e) sk
      = ⟨none, 1, true⟩) ∧
    ((⟨none, 1, false⟩ : StageResult Bytes) ≠ ⟨none, 1, true⟩) := by
  have he2 : extractImage2 resp2 = none := by
    cases hc : resp2.candidates with
    | nil => simp [extractImage2, hc]
    | cons c cs =>
      have hcp : ∀ p ∈ c.content.parts, p.inline_data = none :=
        hni2 c (by rw [hc]; exact List.mem_cons_self _ _)
      simp [extractImage2, hc, findInlineData2_eq_none _ hcp]
  have he3 : extractImage3 resp3 = none := by
    rw [← extractImage_identical]
    cases hc : resp3.candidates with
    | nil => simp [extractImage2, hc]
    | cons c cs =>
      have hcp : ∀ p ∈ c.content.parts, p.inline_data = none :=
        hni3 c (by rw [hc]; exact List.mem_cons_self _ _)
      simp [extractImage2, hc, findInlineData2_eq_none _ hcp]
  refine ⟨?_, ?_, fun e => rfl, fun e => rfl, by simp⟩
  · simp [step2_generate_sketch, h2, he2]
  · simp [step3_generate_render, h3, he3]

/-- Claim C4 witness: a one-candidate, one-text-part response at a
concrete gateway. -/
theorem c4_witness :
    step2_generate_sketch true
      (fun _ => CallResult.ok ⟨[⟨⟨[⟨none⟩]⟩⟩]⟩) [] = ⟨none, 1, false⟩ :=
  (c4_no_image_failure (fun _ => CallResult.ok ⟨[⟨⟨[⟨none⟩]⟩⟩]⟩)
    (fun _ => CallResult.ok ⟨[]⟩) [] [] ⟨[⟨⟨[⟨none⟩]⟩⟩]⟩ ⟨[]⟩
    rfl rfl (by decide) (by decide)).1

/-- Claim C5: when the first candidate's ordered part list contains a
part carrying inline data (per the glossary, inline binary image
payloads as opposed to references), both stages return the data of the
first such part, and the two stages' extraction policies are the same
function. -/
theorem c5_first_inline_part_wins
    (gwi : PyStr → CallResult ImgResponse)
    (gwr : RenderRequest → CallResult ImgResponse)
    (enh : PyStr) (sk : Bytes) (resp2 resp3 : ImgResponse)
    (cand2 : Candidate) (cs2 : List Candidate)
    (pre2 post2 : List Part) (p2 : Part) (blob2 : Blob)
    (cand3 : Candidate) (cs3 : List Candidate)
    (pre3 post3 : List Part) (p3 : Part) (blob3 : Blob)
    (h2 : gwi (step2Prompt enh) = .ok resp2)
    (h3 : gwr (step3Request sk) = .ok resp3)
    (hc2 : resp2.candidates = cand2 :: cs2)
    (hparts2 : cand2.content.parts = pre2 ++ p2 :: post2)
    (hpre2 : ∀ q ∈ pre2, q.inline_data = none)
    (hp2 : p2.inline_data = some blob2)
    (hc3 : resp3.candidates = cand3 :: cs3)
    (hparts3 : cand3.content.parts = pre3 ++ p3 :: post3)
    (hpre3 : ∀ q ∈ pre3, q.inline_data = none)
    (hp3 : p3.inline_data = some blob3) :
    (step2_generate_sketch true gwi enh).result = some blob2.data ∧
    (step3_generate_render true gwr sk).result = some blob3.data ∧
    extractImage2 = extractImage3 := by
  have he2 : extractImage2 resp2 = some blob2.data := by
    simp only [extractImage2, hc2]
    rw [hparts2]
    exact findInlineData2_first pre2 p2 post2 blob2 hpre2 hp2
  have he3 : extractImage3 resp3 = some blob3.data := by
    rw [← extractImage_identical]
    simp only [extractImage2, hc3]
    rw [hparts3]
    exact findInlineData2_first pre3 p3 post3 blob3 hpre3 hp3
  refine ⟨?_, ?_, extractImage_identical⟩
  · simp [step2_generate_sketch, h2, he2]
  · simp [step3_generate_render, h3, he3]

/-- Claim C5 witness: a text part followed by an inline PNG part at a
concrete gateway. -/
theorem c5_witness :
    (step2_generate_sketch true
      (fun _ => CallResult.ok
        ⟨[⟨⟨[⟨none⟩, ⟨some ⟨"image/png".data, [9, 9]⟩⟩]⟩⟩]⟩) []).result =
      some [9, 9] :=
  (c5_first_inline_part_wins
    (fun _ => CallResult.ok
      ⟨[⟨⟨[⟨none⟩, ⟨some ⟨"image/png".data, [9, 9]⟩⟩]⟩⟩]⟩)
    (fun _ => CallResult.ok ⟨[⟨⟨[⟨some ⟨"image/png".data, [7]⟩⟩]⟩⟩]⟩)
    [] [] ⟨[⟨⟨[⟨none⟩, ⟨some ⟨"image/png".data, [9, 9]⟩⟩]⟩⟩]⟩
    ⟨[⟨⟨[⟨some ⟨"image/png".data, [7]⟩⟩]⟩⟩]⟩
    ⟨⟨[⟨none⟩, ⟨some ⟨"image/png".data, [9, 9]⟩⟩]⟩⟩ []
    [⟨none⟩] [] ⟨some ⟨"image/png".data, [9, 9]⟩⟩ ⟨"image/png".data, [9, 9]⟩
    ⟨⟨[⟨some ⟨"image/png".data, [7]⟩⟩]⟩⟩ []
    [] [] ⟨some ⟨"image/png".data, [7]⟩⟩ ⟨"image/png".data, [7]⟩
    rfl rfl rfl rfl (by decide) rfl rfl rfl (by decide) rfl).1

/-- Claim C6: when the free-text details exceed 200 characters, the base
prompt does too, so the text embedded into the stage-1 template — the
Python slice `base_prompt[:200]` — has exactly 200 characters and is a
prefix of the base prompt; and the stage never rejects the input: with a
client available it always issues exactly one backend call. -/
theorem c6_truncation (design_style room_type material_focus
    color_palette additional_details : PyStr)
    (h : 200 < additional_details.length) :
    ((mkBasePrompt design_style room_type material_focus color_palette
      additional_details).take 200).length = 200 ∧
    step1Prompt (mkBasePrompt design_style room_type material_focus
        color_palette additional_details) =
      step1Header.data ++ "Room: ".data ++
        (mkBasePrompt design_style room_type material_focus color_palette
          additional_details).take 200 ∧
    (mkBasePrompt design_style room_type material_focus color_palette
        additional_details).take 200 <+:
      mkBasePrompt design_style room_type material_focus color_palette
        additional_details ∧
    (∀ gwt : PyStr → CallResult PyStr,
      (step1_enhance_prompt true gwt (mkBasePrompt design_style room_type
        material_focus color_palette additional_details)).calls = 1) := by
  have hlen : 200 ≤ (mkBasePrompt design_style room_type material_focus
      color_palette additional_details).length := by
    simp only [mkBasePrompt, List.length_append]
    omega
  refine ⟨?_, rfl, List.take_prefix _ _, ?_⟩
  · rw [List.length_take]
    omega
  · intro gwt
    cases hg : gwt (step1Prompt (mkBasePrompt design_style room_type
        material_focus color_palette additional_details)) with
    | err e => simp [step1_enhance_prompt, hg]
    | ok t => simp [step1_enhance_prompt, hg]

/-- Claim C6 witness at a concrete 201-character detail text. -/
theorem c6_witness :
    ((mkBasePrompt "Modern".data "Living Room".data "Wood".data
      "Neutral".data (List.replicate 201 'd')).take 200).length = 200 :=
  (c6_truncation "Modern".data "Living Room".data "Wood".data
    "Neutral".data (List.replicate 201 'd')
    (by rw [List.length_replicate]; omega)).1

/-- Claim C9: the extraction of stages 2 and 3 returns the inline
payload of the first part carrying any inline data, without checking the
declared MIME type (here, one that does not start with `image/`) and
without inspecting the bytes, which stay an opaque arbitrary sequence:
the non-image payload becomes the truthy stage result. -/
theorem c9_no_mime_check
    (gwi : PyStr → CallResult ImgResponse)
    (gwr : RenderRequest → CallResult ImgResponse)
    (enh : PyStr) (sk : Bytes) (resp2 resp3 : ImgResponse)
    (cand2 : Candidate) (cs2 : List Candidate)
    (pre2 post2 : List Part) (p2 : Part) (blob2 : Blob)
    (cand3 : Candidate) (cs3 : List Candidate)
    (pre3 post3 : List Part) (p3 : Part) (blob3 : Blob)
    (h2 : gwi (step2Prompt enh) = .ok resp2)
    (h3 : gwr (step3Request sk) = .ok resp3)
    (hc2 : resp2.candidates = cand2 :: cs2)
    (hparts2 : cand2.content.parts = pre2 ++ p2 :: post2)
    (hpre2 : ∀ q ∈ pre2, q.inline_data = none)
    (hp2 : p2.inline_data = some blob2)
    (hmime2 : startsWithImage blob2.mime_type = false)
    (hc3 : resp3.candidates = cand3 :: cs3)
    (hparts3 : cand3.content.parts = pre3 ++ p3 :: post3)
    (hpre3 : ∀ q ∈ pre3, q.inline_data = none)
    (hp3 : p3.inline_data = some blob3)
    (hmime3 : startsWithImage blob3.mime_type = false) :
    (step2_generate_sketch true gwi enh).result = some blob2.data ∧
    (step3_generate_render true gwr sk).result = some blob3.data := by
  have he2 : extractImage2 resp2 = some blob2.data := by
    simp only [extractImage2, hc2]
    rw [hparts2]
    exact findInlineData2_first pre2 p2 post2 blob2 hpre2 hp2
  have he3 : extractImage3 resp3 = some blob3.data := by
    rw [← extractImage_identical]
    simp only [extractImage2, hc3]
    rw [hparts3]
    exact findInlineData2_first pre3 p3 post3 blob3 hpre3 hp3
  constructor
  · simp [step2_generate_sketch, h2, he2]
  · simp [step3_generate_render, h3, he3]

/-- Claim C9 witness: a first inline part declared `text/plain` is still
returned as the stage-2 result. -/
theorem c9_witness :
    (step2_generate_sketch true
      (fun _ => CallResult.ok
        ⟨[⟨⟨[⟨some ⟨"text/plain".data, [1, 2, 3]⟩⟩]⟩⟩]⟩) []).result =
      some [1, 2, 3] :=
  (c9_no_mime_check
    (fun _ => CallResult.ok ⟨[⟨⟨[⟨some ⟨"text/plain".data, [1, 2, 3]⟩⟩]⟩⟩]⟩)
    (fun _ => CallResult.ok ⟨[⟨⟨[⟨some ⟨"audio/ogg".data, [4]⟩⟩]⟩⟩]⟩)
    [] [] ⟨[⟨⟨[⟨some ⟨"text/plain".data, [1, 2, 3]⟩⟩]⟩⟩]⟩
    ⟨[⟨⟨[⟨some ⟨"audio/ogg".data, [4]⟩⟩]⟩⟩]⟩
    ⟨⟨[⟨some ⟨"text/plain".data, [1, 2, 3]⟩⟩]⟩⟩ []
    [] [] ⟨some ⟨"text/plain".data, [1, 2, 3]⟩⟩ ⟨"text/plain".data, [1, 2, 3]⟩
    ⟨⟨[⟨some ⟨"audio/ogg".data, [4]⟩⟩]⟩⟩ []
    [] [] ⟨some ⟨"audio/ogg".data, [4]⟩⟩ ⟨"audio/ogg".data, [4]⟩
    rfl rfl rfl rfl (by decide) rfl (by decide)
    rfl rfl (by decide) rfl (by decide)).1

/-- Claim C10: the extraction of stages 2 and 3 scans only the parts of
the first candidate; when the first candidate has no inline-data part,
the stage result is `None` even though a later candidate carries inline
image data. -/
theorem c10_first_candidate_only
    (gwi : PyStr → CallResult ImgResponse)
    (gwr : RenderRequest → CallResult ImgResponse)
    (enh : PyStr) (sk : Bytes) (resp2 resp3 : ImgResponse)
    (cand2 : Candidate) (cs2 : List Candidate)
    (cand3 : Candidate) (cs3 : List Candidate)
    (h2 : gwi (step2Prompt enh) = .ok resp2)
    (h3 : gwr (step3Request sk) = .ok resp3)
    (hc2 : resp2.candidates = cand2 :: cs2)
    (hfirst2 : ∀ p ∈ cand2.content.parts, p.inline_data = none)
    (hlater2 : ∃ d ∈ cs2, ∃ p ∈ d.content.parts, p.inline_data.isSome)
    (hc3 : resp3.candidates = cand3 :: cs3)
    (hfirst3 : ∀ p ∈ cand3.content.parts, p.inline_data = none)
    (hlater3 : ∃ d ∈ cs3, ∃ p ∈ d.content.parts, p.inline_data.isSome) :
    (step2_generate_sketch true gwi enh).result = none ∧
    (step3_generate_render true gwr sk).result = none := by
  have he2 : extractImage2 resp2 = none := by
    simp only [extractImage2, hc2]
    exact findInlineData2_eq_none _ hfirst2
  have he3 : extractImage3 resp3 = none := by
    rw [← extractImage_identical]
    simp only [extractImage2, hc3]
    exact findInlineData2_eq_none _ hfirst3
  constructor
  · simp [step2_generate_sketch, h2, he2]
  · simp [step3_generate_render, h3, he3]

/-- Claim C10 witness: an inline PNG only in the second candidate is not
returned. -/
theorem c10_witness :
    (step2_generate_sketch true
      (fun _ => CallResult.ok
        ⟨[⟨⟨[⟨none⟩]⟩⟩, ⟨⟨[⟨some ⟨"image/png".data, [8]⟩⟩]⟩⟩]⟩) []).result =
      none :=
  (c10_first_candidate_only
    (fun _ => CallResult.ok
      ⟨[⟨⟨[⟨none⟩]⟩⟩, ⟨⟨[⟨some ⟨"image/png".data, [8]⟩⟩]⟩⟩]⟩)
    (fun _ => CallResult.ok
      ⟨[⟨⟨[]⟩⟩, ⟨⟨[⟨some ⟨"image/png".data, [6]⟩⟩]⟩⟩]⟩)
    [] [] ⟨[⟨⟨[⟨none⟩]⟩⟩, ⟨⟨[⟨some ⟨"image/png".data, [8]⟩⟩]⟩⟩]⟩
    ⟨[⟨⟨[]⟩⟩, ⟨⟨[⟨some ⟨"image/png".data, [6]⟩⟩]⟩⟩]⟩
    ⟨⟨[⟨none⟩]⟩⟩ [⟨⟨[⟨some ⟨"image/png".data, [8]⟩⟩]⟩⟩]
    ⟨⟨[]⟩⟩ [⟨⟨[⟨some ⟨"image/png".data, [6]⟩⟩]⟩⟩]
    rfl rfl rfl (by decide) (by decide)
    rfl (by decide) (by decide)).1

/-- Claim C1 counterexample: in a session whose previous run filled all
slots, a new run whose stage 1 fails (offline gateway) is a run in which
stage 1 returned a falsy result, yet the stage-2 slot of the final state
is non-empty — it holds the stale previous bytes, so the later slots do
not stay empty. -/
theorem c1_counterexample_stale_slot :
    pyTruthyStr (runPipeline
        (some ⟨some "nice room".data, some [137, 80], some [1, 2]⟩)
        ⟨false, fun _ => CallResult.err [], fun _ => CallResult.err [],
         fun _ => CallResult.err []⟩
        "x".data).final.step1_text = false ∧
    (runPipeline
        (some ⟨some "nice room".data, some [137, 80], some [1, 2]⟩)
        ⟨false, fun _ => CallResult.err [], fun _ => CallResult.err [],
         fun _ => CallResult.err []⟩
        "x".data).calls2 = 0 ∧
    (runPipeline
        (some ⟨some "nice room".data, some [137, 80], some [1, 2]⟩)
        ⟨false, fun _ => CallResult.err [], fun _ => CallResult.err [],
         fun _ => CallResult.err []⟩
        "x".data).final.step2_image = some [137, 80] ∧
    pyTruthyBytes (some ([137, 80] : Bytes)) = true :=
  ⟨rfl, rfl, rfl, rfl⟩

/-- Claim C1 (amended): if stage N fails (N = 1, 2 or 3), the later
stages are never invoked — their backend call counts are zero — and
their slots are left unchanged by the run (hence empty whenever the
session started fresh, but possibly holding stale values from a
previous run otherwise), while the artifacts of the stages completed in
this run remain in the final session state; in particular after a
stage-3 failure the stage-1 and stage-2 artifacts of this run are still
present and truthy in the final state. -/
theorem c1_first_failure_halts (prev : Option SessionState)
    (gw : Gateway) (bp : PyStr) :
    (pyTruthyStr (step1_enhance_prompt gw.client gw.textModel bp).result
        = false →
      (runPipeline prev gw bp).calls2 = 0 ∧
      (runPipeline prev gw bp).calls3 = 0 ∧
      (runPipeline prev gw bp).final.step2_image
        = (initSession prev).step2_image ∧
      (runPipeline prev gw bp).final.step3_image
        = (initSession prev).step3_image ∧
      (prev = none →
        (runPipeline prev gw bp).final.step2_image = none ∧
        (runPipeline prev gw bp).final.step3_image = none)) ∧
    (pyTruthyStr (step1_enhance_prompt gw.client gw.textModel bp).result
        = true →
      pyTruthyBytes (step2_generate_sketch gw.client gw.imageModel
        ((step1_enhance_prompt gw.client gw.textModel bp).result.getD
          [])).result = false →
      (runPipeline prev gw bp).calls3 = 0 ∧
      (runPipeline prev gw bp).final.step3_image
        = (initSession prev).step3_image ∧
      (runPipeline prev gw bp).final.step1_text
        = (step1_enhance_prompt gw.client gw.textModel bp).result ∧
      pyTruthyStr (runPipeline prev gw bp).final.step1_text = true ∧
      (prev = none →
        (runPipeline prev gw bp).final.step3_image = none)) ∧
    (pyTruthyStr (step1_enhance_prompt gw.client gw.textModel bp).result
        = true →
      pyTruthyBytes (step2_generate_sketch gw.client gw.imageModel
        ((step1_enhance_prompt gw.client gw.textModel bp).result.getD
          [])).result = true →
      pyTruthyBytes (step3_generate_render gw.client gw.renderModel
        ((step2_generate_sketch gw.client gw.imageModel
          ((step1_enhance_prompt gw.client gw.textModel bp).result.getD
            [])).result.getD [])).result = false →
      (runPipeline prev gw bp).final.step1_text
        = (step1_enhance_prompt gw.client gw.textModel bp).result ∧
      pyTruthyStr (runPipeline prev gw bp).final.step1_text = true ∧
      (runPipeline prev gw bp).final.step2_image
        = (step2_generate_sketch gw.client gw.imageModel
          ((step1_enhance_prompt gw.client gw.textModel bp).result.getD
            [])).result ∧
      pyTruthyBytes (runPipeline prev gw bp).final.step2_image = true ∧
      (runPipeline prev gw bp).final.step3_image
        = (step3_generate_render gw.client gw.renderModel
          ((step2_generate_sketch gw.client gw.imageModel
            ((step1_enhance_prompt gw.client gw.textModel bp).result.getD
              [])).result.getD [])).result) := by
  refine ⟨?_, ?_, ?_⟩
  · intro h
    rw [runPipeline_halt1 prev gw bp h]
    refine ⟨rfl, rfl, rfl, rfl, ?_⟩
    intro hp; subst hp; exact ⟨rfl, rfl⟩
  · intro h1 h2
    rw [runPipeline_halt2 prev gw bp h1 h2]
    refine ⟨rfl, rfl, rfl, h1, ?_⟩
    intro hp; subst hp; rfl
  · intro h1 h2 h3
    rw [runPipeline_full prev gw bp h1 h2]
    exact ⟨rfl, h1, rfl, h2, rfl⟩

/-- Claim C1 witness: the three failure cases at concrete gateways
(stage 1 failing offline; stage 2 failing on a no-candidate response;
stage 3 failing on a transport error after stages 1 and 2 succeeded,
with the stage-2 artifact still truthy in the final state). -/
theorem c1_witness :
    (runPipeline none
      ⟨false, fun _ => CallResult.err [], fun _ => CallResult.err [],
       fun _ => CallResult.err []⟩ "a".data).calls2 = 0 ∧
    (runPipeline none
      ⟨true, fun _ => CallResult.ok "hi".data, fun _ => CallResult.ok ⟨[]⟩,
       fun _ => CallResult.err []⟩ "b".data).calls3 = 0 ∧
    pyTruthyBytes (runPipeline none
      ⟨true, fun _ => CallResult.ok "hi".data,
       fun _ => CallResult.ok ⟨[⟨⟨[⟨some ⟨"image/png".data, [1]⟩⟩]⟩⟩]⟩,
       fun _ => CallResult.err []⟩ "d".data).final.step2_image = true := by
  refine ⟨?_, ?_, ?_⟩
  · exact ((c1_first_failure_halts none
      ⟨false, fun _ => CallResult.err [], fun _ => CallResult.err [],
       fun _ => CallResult.err []⟩ "a".data).1 (by decide)).1
  · exact ((c1_first_failure_halts none
      ⟨true, fun _ => CallResult.ok "hi".data, fun _ => CallResult.ok ⟨[]⟩,
       fun _ => CallResult.err []⟩ "b".data).2.1 (by decide) (by decide)).1
  · exact ((c1_first_failure_halts none
      ⟨true, fun _ => CallResult.ok "hi".data,
       fun _ => CallResult.ok ⟨[⟨⟨[⟨some ⟨"image/png".data, [1]⟩⟩]⟩⟩]⟩,
       fun _ => CallResult.err []⟩ "d".data).2.2
      (by decide) (by decide) (by decide)).2.2.2.1

/-- Claim C2 counterexample: in a session whose previous run filled the
sketch slot, a new run whose stage 1 fails passes through a state whose
stage-2 slot is non-empty while the stage-1 slot is not successful, so
the monotonic-fill invariant does not hold at every point of every
run. -/
theorem c2_counterexample_carryover :
    ∃ s ∈ (runPipeline (some ⟨some "old".data, some [9], none⟩)
        ⟨false, fun _ => CallResult.err [], fun _ => CallResult.err [],
         fun _ => CallResult.err []⟩
        "y".data).states, ¬ monotoneFill s := by
  refine ⟨⟨none, some [9], none⟩, by decide, fun hm => ?_⟩
  have := hm.1 rfl
  simp [pyTruthyStr] at this

/-- Claim C2 (amended): the monotonic-fill invariant — a non-empty later
slot implies all earlier slots are truthy — holds at every state of any
run whose starting session state has empty sketch and render slots (in
particular the first run of a session); a later run can instead expose a
stale non-empty later slot carried over from a previous run. -/
theorem c2_monotone_fill (prev : Option SessionState) (gw : Gateway)
    (bp : PyStr)
    (h2 : (initSession prev).step2_image = none)
    (h3 : (initSession prev).step3_image = none) :
    ∀ s ∈ (runPipeline prev gw bp).states, monotoneFill s := by
  intro s hs
  by_cases hb1 : pyTruthyStr
      (step1_enhance_prompt gw.client gw.textModel bp).result = true
  · by_cases hb2 : pyTruthyBytes (step2_generate_sketch gw.client
        gw.imageModel ((step1_enhance_prompt gw.client gw.textModel
          bp).result.getD [])).result = true
    · rw [runPipeline_full prev gw bp hb1 hb2] at hs
      simp only [List.mem_cons, List.not_mem_nil, or_false] at hs
      rcases hs with h | h | h | h
      · subst h; exact monotoneFill_empty23 _ h2 h3
      · subst h; exact monotoneFill_empty23 _ h2 h3
      · subst h
        exact ⟨fun _ => hb1,
          fun hc => by simp [pyTruthyBytes, h3] at hc⟩
      · subst h; exact ⟨fun _ => hb1, fun _ => ⟨hb2, hb1⟩⟩
    · rw [runPipeline_halt2 prev gw bp hb1
        (by simpa using hb2)] at hs
      simp only [List.mem_cons, List.not_mem_nil, or_false] at hs
      rcases hs with h | h | h
      · subst h; exact monotoneFill_empty23 _ h2 h3
      · subst h; exact monotoneFill_empty23 _ h2 h3
      · subst h
        exact ⟨fun _ => hb1,
          fun hc => by simp [pyTruthyBytes, h3] at hc⟩
  · rw [runPipeline_halt1 prev gw bp (by simpa using hb1)] at hs
    simp only [List.mem_cons, List.not_mem_nil, or_false] at hs
    rcases hs with h | h
    · subst h; exact monotoneFill_empty23 _ h2 h3
    · subst h; exact monotoneFill_empty23 _ h2 h3

/-- Claim C2 witness: the invariant at the initial state of a fresh-run
trace. -/
theorem c2_witness : monotoneFill ⟨some [], none, none⟩ :=
  c2_monotone_fill none
    ⟨false, fun _ => CallResult.err [], fun _ => CallResult.err [],
     fun _ => CallResult.err []⟩ "c".data rfl rfl
    ⟨some [], none, none⟩ (by decide)

/-- Claim C8 counterexample: starting a run in a session whose previous
run filled the slots does not begin with cleared slots — the state right
after the initialization block (before stage 1 executes) still holds all
three previous values. -/
theorem c8_counterexample_no_reset :
    (runPipeline (some ⟨some "prior".data, some [3, 4], some [5]⟩)
        ⟨false, fun _ => CallResult.err [], fun _ => CallResult.err [],
         fun _ => CallResult.err []⟩
        "z".data).states.head? =
      some ⟨some "prior".data, some [3, 4], some [5]⟩ ∧
    pyTruthyBytes (some ([3, 4] : Bytes)) = true ∧
    pyTruthyStr (some "prior".data) = true :=
  ⟨rfl, rfl, rfl⟩

/-- Claim C8 (amended): the slots are created empty only when absent
from the session, i.e. a fresh session starts with all slots cleared
(`""`, `None`, `None`), but a continuing session keeps its previous
values at the start of the run, each being overwritten only when its
stage executes; within a run from a fresh session no slot is ever
overwritten once non-empty (truthy). -/
theorem c8_fresh_session_init :
    initSession none = ⟨some [], none, none⟩ ∧
    (∀ s : SessionState, initSession (some s) = s) ∧
    (∀ (gw : Gateway) (bp : PyStr),
      List.Chain' preservesNonEmpty (runPipeline none gw bp).states) := by
  refine ⟨rfl, fun s => rfl, ?_⟩
  intro gw bp
  have hempty1 : pyTruthyStr (initSession none).step1_text = false := rfl
  by_cases hb1 : pyTruthyStr
      (step1_enhance_prompt gw.client gw.textModel bp).result = true
  · by_cases hb2 : pyTruthyBytes (step2_generate_sketch gw.client
        gw.imageModel ((step1_enhance_prompt gw.client gw.textModel
          bp).result.getD [])).result = true
    · rw [runPipeline_full none gw bp hb1 hb2]
      refine List.chain'_cons.mpr ⟨?_, List.chain'_cons.mpr ⟨?_,
        List.chain'_cons.mpr ⟨?_, List.chain'_singleton _⟩⟩⟩
      · exact ⟨fun hc => by simp [pyTruthyStr, initSession] at hc,
          fun hc => by simp [pyTruthyBytes, initSession] at hc,
          fun hc => by simp [pyTruthyBytes, initSession] at hc⟩
      · exact ⟨fun _ => rfl,
          fun hc => by simp [pyTruthyBytes, initSession] at hc,
          fun hc => by simp [pyTruthyBytes, initSession] at hc⟩
      · exact ⟨fun _ => rfl, fun _ => rfl,
          fun hc => by simp [pyTruthyBytes, initSession] at hc⟩
    · rw [runPipeline_halt2 none gw bp hb1 (by simpa using hb2)]
      refine List.chain'_cons.mpr ⟨?_, List.chain'_cons.mpr ⟨?_,
        List.chain'_singleton _⟩⟩
      · exact ⟨fun hc => by simp [pyTruthyStr, initSession] at hc,
          fun hc => by simp [pyTruthyBytes, initSession] at hc,
          fun hc => by simp [pyTruthyBytes, initSession] at hc⟩
      · exact ⟨fun _ => rfl,
          fun hc => by simp [pyTruthyBytes, initSession] at hc,
          fun hc => by simp [pyTruthyBytes, initSession] at hc⟩
  · rw [runPipeline_halt1 none gw bp (by simpa using hb1)]
    refine List.chain'_cons.mpr ⟨?_, List.chain'_singleton _⟩
    exact ⟨fun hc => by simp [pyTruthyStr, initSession] at hc,
      fun hc => by simp [pyTruthyBytes, initSession] at hc,
      fun hc => by simp [pyTruthyBytes, initSession] at hc⟩

/-- Claim C8 witness: a continuing session keeps its slots at
initialization, applied at a concrete state. -/
theorem c8_witness :
    initSession (some ⟨none, some [6], none⟩) = ⟨none, some [6], none⟩ :=
  c8_fresh_session_init.2.1 ⟨none, some [6], none⟩

end AIStudio
